import Mathlib

/-!
Shallow embedding, in Lean 4, of the window/session lifecycle core of the
MS-365-Electron desktop shell (src/app/config: store.js, windowManager.js,
sessionManager.js, appLauncher.js, and the main.js startup section kept in
preferences.js).  Definitions follow the JavaScript source line by line;
settings values are modelled as a small JavaScript-value type so that the
loose `===`/truthiness comparisons of the source are kept exactly.
-/

namespace MSO

/-! ## JavaScript values and the settings store (store.js) -/

/-- A JavaScript value as it can appear in the electron-store settings file
or in a loosely-typed option field: `undefined`, `null`, a boolean, an
integer number, or a string. -/
inductive JSVal where
  | undef
  | null
  | bool (b : Bool)
  | num (n : Int)
  | str (s : String)
deriving DecidableEq, Repr

/-- JavaScript truthiness of a value (`if (v)` / `v || d`). -/
def JSVal.truthy : JSVal → Bool
  | .undef => false
  | .null => false
  | .bool b => b
  | .num n => n != 0
  | .str s => s != ""

/-- String coercion as performed by a template literal `${v}`. -/
def JSVal.toJSString : JSVal → String
  | .undef => "undefined"
  | .null => "null"
  | .bool b => if b then "true" else "false"
  | .num n => toString n
  | .str s => s

/-- The JavaScript `a || b` operator on values. -/
def jsOr (a b : JSVal) : JSVal := if a.truthy then a else b

/-- The settings store: `getValue(key)` reads the persisted value for a key,
`undef` standing for an absent key (store.js `store.get`). -/
def Settings : Type := String → JSVal

/-- store.js `getValue`. -/
def getValue (s : Settings) (k : String) : JSVal := s k

/-! ## Substring matching (JavaScript `String.prototype.includes`) -/

/-- Check that `pat` is a leading segment of `hay`. -/
def startsWithChars : List Char → List Char → Bool
  | [], _ => true
  | _ :: _, [] => false
  | p :: ps, h :: hs => p = h && startsWithChars ps hs

/-- Check that `pat` occurs contiguously inside `hay`
(the empty pattern occurs everywhere, as in JavaScript). -/
def hasSubChars : List Char → List Char → Bool
  | [], pat => pat.isEmpty
  | c :: t, pat => startsWithChars pat (c :: t) || hasSubChars t pat

/-- JavaScript `s.includes(pat)`. -/
def containsSub (s pat : String) : Bool := hasSubChars s.data pat.data

/-- JavaScript `s.toLowerCase()` (ASCII, which covers every string the
classifiers compare against). -/
def jsToLower (s : String) : String := ⟨s.data.map Char.toLower⟩

/-! ## Partition resolver (appLauncher.js) -/

/-- appLauncher.js `getAccountType`:
`getValue("enterprise-or-normal") === "?auth=2" ? "work" : "personal"`. -/
def getAccountType (s : Settings) : String :=
  if getValue s "enterprise-or-normal" = .str "?auth=2" then "work" else "personal"

/-- The account type `getPartition` acts on: the explicit argument when
truthy, otherwise the settings-derived one (`accountType || getAccountType()`). -/
def resolvedAccountType (accountType : JSVal) (s : Settings) : JSVal :=
  if accountType.truthy then accountType else .str (getAccountType s)

/-- appLauncher.js `getPartition`:
`type === "work" ? "persist:work" : "persist:personal"`. -/
def getPartition (accountType : JSVal) (s : Settings) : String :=
  if resolvedAccountType accountType s = .str "work" then "persist:work"
  else "persist:personal"

/-! ## The app URL table (appLauncher.js `APP_URLS` / `getAppUrl`) -/

/-- appLauncher.js `APP_URLS`: per-app `(personal, work)` URL pair; `none`
for an unknown app key. -/
def APP_URLS : String → Option (String × String)
  | "word" => some ("https://microsoft365.com/launch/word?auth=1",
      "https://microsoft365.com/launch/word?auth=2")
  | "excel" => some ("https://microsoft365.com/launch/excel?auth=1",
      "https://microsoft365.com/launch/excel?auth=2")
  | "powerpoint" => some ("https://microsoft365.com/launch/powerpoint?auth=1",
      "https://microsoft365.com/launch/powerpoint?auth=2")
  | "outlook" => some ("https://outlook.live.com/mail/",
      "https://outlook.office.com/mail/")
  | "onedrive" => some ("https://microsoft365.com/launch/onedrive?auth=1",
      "https://microsoft365.com/launch/onedrive?auth=2")
  | "onenote" => some ("https://www.onenote.com/notebooks?auth=1",
      "https://www.onenote.com/notebooks?auth=2")
  | "teams" => some ("https://teams.live.com/", "https://teams.microsoft.com/")
  | "allapps" => some ("https://www.microsoft365.com/apps?auth=1",
      "https://www.microsoft365.com/apps?auth=2")
  | "home" => some ("https://microsoft365.com/?auth=1", "https://microsoft365.com/?auth=2")
  | _ => none

/-- JavaScript property access `pair[type]` on an `APP_URLS` entry: a string
for the two known account types, `undefined` for anything else. -/
def appUrlIndex (pair : String × String) (type : String) : JSVal :=
  if type = "personal" then .str pair.1
  else if type = "work" then .str pair.2
  else (JSVal.undef)

/-- appLauncher.js `getAppUrl(appName, accountType)`: the account type falls
back to `getAccountType()` when the argument is absent or falsy, an unknown
app name falls back to the `home` pair. -/
def getAppUrl (appName : String) (accountType : Option String) (s : Settings) : JSVal :=
  let type := match accountType with
    | some a => if a = "" then getAccountType s else a
    | none => getAccountType s
  let pair := (APP_URLS (jsToLower appName)).getD
    ("https://microsoft365.com/?auth=1", "https://microsoft365.com/?auth=2")
  appUrlIndex pair type

/-! ## Window metadata and the registry map (windowManager.js) -/

/-- A window rectangle; `x`/`y` are `Option` because windowManager.js builds
its default bounds with `x: undefined, y: undefined`. -/
structure Bounds where
  x : Option Int
  y : Option Int
  width : Int
  height : Int
deriving DecidableEq, Repr

/-- windowManager.js `WindowMeta`: the metadata record stored in
`managedWindows` for each live window.  `url` is a `JSVal` because
`url || getAppUrl(appType, accountType)` can evaluate to `undefined` when
the resolved account type indexes no entry of the URL pair. -/
structure WindowMeta where
  id : Nat
  appType : String
  accountType : String
  url : JSVal
  bounds : Bounds
  isMaximized : Bool
  isFullScreen : Bool
deriving DecidableEq, Repr

/-- The `managedWindows` map, keyed by the native window id.  Represented as
an insertion-ordered association list with unique keys, which is exactly the
observable behaviour of a JavaScript `Map`. -/
abbrev Registry : Type := List (Nat × WindowMeta)

/-- JavaScript `Map.prototype.get`. -/
def mapGet (m : Registry) (k : Nat) : Option WindowMeta :=
  match m with
  | [] => none
  | (k2, v) :: t => if k2 = k then some v else mapGet t k

/-- JavaScript `Map.prototype.set`: replaces the value in place when the key
exists (keeping its position), appends otherwise. -/
def mapSet (m : Registry) (k : Nat) (v : WindowMeta) : Registry :=
  match m with
  | [] => [(k, v)]
  | (k2, v2) :: t => if k2 = k then (k2, v) :: t else (k2, v2) :: mapSet t k v

/-- JavaScript `Map.prototype.delete` (windowManager.js `closed` handler). -/
def mapDelete (m : Registry) (k : Nat) : Registry :=
  match m with
  | [] => []
  | (k2, v2) :: t => if k2 = k then t else (k2, v2) :: mapDelete t k

/-- JavaScript `Map.prototype.size` on a unique-key map. -/
def mapSize (m : Registry) : Nat := m.length

/-! ## App-type classifiers -/

/-- windowManager.js `detectAppType(url)`: ordered substring rules over the
lowercased URL, fallback `"home"`.  Note it takes the URL only. -/
def detectAppType (url : String) : String :=
  let urlLower := jsToLower url
  if containsSub urlLower "word" || containsSub urlLower ".docx" then "word"
  else if containsSub urlLower "excel" || containsSub urlLower ".xlsx" then "excel"
  else if containsSub urlLower "powerpoint" || containsSub urlLower ".pptx" then "powerpoint"
  else if containsSub urlLower "outlook" then "outlook"
  else if containsSub urlLower "onedrive" then "onedrive"
  else if containsSub urlLower "onenote" then "onenote"
  else if containsSub urlLower "teams" then "teams"
  else "home"

/-- main.js (preferences.js bundle) `did-finish-load` dynamic-icons
classifier: the only classifier that consults the document title, with
fallback `"office"` and no lowercasing. -/
def dynamicIconsApp (url title : String) : String :=
  if containsSub url "&ithint=file%2cpptx" || containsSub title ".pptx" then "powerpoint"
  else if containsSub url "&ithint=file%2cdocx" || containsSub title ".docx" then "word"
  else if containsSub url "&ithint=file%2cxlsx" || containsSub title ".xlsx" then "excel"
  else if containsSub url "outlook.live.com" || containsSub url "outlook.office.com" then
    "outlook"
  else if containsSub url "onedrive.live.com" || containsSub url "onedrive.aspx" then
    "onedrive"
  else if containsSub url "teams.live.com" || containsSub url "teams.microsoft.com" then
    "teams"
  else if containsSub url "&ithint=onenote" || containsSub url "onenote.com" then "onenote"
  else "office"

/-- An ordered rule list as the spec describes the classifier (predicate,
result), used to state the first-match-wins property. -/
def firstMatch (rules : List ((String → Bool) × String)) (u : String) (dflt : String) :
    String :=
  match rules with
  | [] => dflt
  | (p, r) :: rest => if p u then r else firstMatch rest u dflt

/-- The rule list of `detectAppType`, in source order. -/
def detectRules : List ((String → Bool) × String) :=
  [ (fun u => containsSub u "word" || containsSub u ".docx", "word"),
    (fun u => containsSub u "excel" || containsSub u ".xlsx", "excel"),
    (fun u => containsSub u "powerpoint" || containsSub u ".pptx", "powerpoint"),
    (fun u => containsSub u "outlook", "outlook"),
    (fun u => containsSub u "onedrive", "onedrive"),
    (fun u => containsSub u "onenote", "onenote"),
    (fun u => containsSub u "teams", "teams") ]

/-- Modelled from the spec and claim wording (for comparison only): a
classifier of `(url, title)` applying the rules word/.docx, excel/.xlsx,
powerpoint/.pptx, outlook, onedrive, onenote, teams in order, with the title
consulted as a secondary signal for the file-extension hints, and fallback
`"home"`.  No function of the source has this behaviour. -/
def classifyClaim (url title : String) : String :=
  let u := jsToLower url
  let t := jsToLower title
  if containsSub u "word" || containsSub u ".docx" || containsSub t ".docx" then "word"
  else if containsSub u "excel" || containsSub u ".xlsx" || containsSub t ".xlsx" then "excel"
  else if containsSub u "powerpoint" || containsSub u ".pptx" || containsSub t ".pptx" then
    "powerpoint"
  else if containsSub u "outlook" then "outlook"
  else if containsSub u "onedrive" then "onedrive"
  else if containsSub u "onenote" then "onenote"
  else if containsSub u "teams" then "teams"
  else "home"

/-! ## Window creation (windowManager.js `createWindow`) -/

/-- The options object passed to `createWindow`.  `url` is a raw JavaScript
value because the source applies `||` to it; the other fields carry `none`
for an absent (`undefined`) property, so the destructuring defaults of the
source apply exactly. -/
structure CreateOptions where
  url : JSVal
  appType : Option String
  accountType : Option String
  bounds : Option Bounds
  isMaximized : Option Bool
  showWindow : Option Bool
deriving DecidableEq, Repr

/-- The environment a single `createWindow` call draws from the native
layer: the fresh `BrowserWindow` id, and the default bounds computed from
the primary display work area and the `windowWidth`/`windowHeight` settings
(`Math.round(workArea.width * windowWidth)` with `x`/`y` left `undefined`;
the floating-point product is opaque to every claim, so the computed
rectangle is supplied as data). -/
structure CreateEnv where
  nativeId : Nat
  defaultBounds : Bounds
deriving DecidableEq, Repr

/-- What one `createWindow` call produces: the metadata record inserted into
the registry, the updated registry and id counter, the storage partition of
the new window, and the URL passed to `loadURL`. -/
structure CreateResult where
  meta : WindowMeta
  reg : Registry
  counter : Nat
  partition : String
  loadUrl : String
deriving Repr

/-- windowManager.js `createWindow(options)`: destructures the options with
defaults, takes a fresh `windowId` from `++windowIdCounter`, resolves the
partition, picks `bounds || defaultBounds`, stores the metadata record under
the native window id, and computes the URL handed to `loadURL`. -/
def createWindow (opts : CreateOptions) (s : Settings) (env : CreateEnv)
    (counter : Nat) (reg : Registry) : CreateResult :=
  let url := opts.url
  let appType := opts.appType.getD "home"
  let accountType := opts.accountType.getD
    (if getValue s "enterprise-or-normal" = .str "?auth=2" then "work" else "personal")
  let isMaximized := opts.isMaximized.getD false
  let windowId := counter + 1
  let partition := getPartition (.str accountType) s
  let windowBounds := match opts.bounds with
    | some b => b
    | none => env.defaultBounds
  let meta : WindowMeta :=
    { id := windowId
      appType := appType
      accountType := accountType
      url := jsOr url (getAppUrl appType (some accountType) s)
      bounds := windowBounds
      isMaximized := isMaximized
      isFullScreen := false }
  let custompage := (jsOr (getValue s "custompage") (.str "home")).toJSString
  let loadUrl := (jsOr url (.str ("https://microsoft365.com/" ++ custompage ++ "/" ++
    (if accountType = "work" then "?auth=2" else "?auth=1")))).toJSString
  { meta := meta
    reg := mapSet reg env.nativeId meta
    counter := windowId
    partition := partition
    loadUrl := loadUrl }

/-- A sequence of `createWindow` calls (session restore replays one per
saved record): threads the id counter and the registry, drawing each call's
native environment from a stream indexed by the current counter.  Returns
the created metadata records in call order. -/
def runCreates (s : Settings) (envs : Nat → CreateEnv) :
    List CreateOptions → Nat → Registry → List WindowMeta × Nat × Registry
  | [], counter, reg => ([], counter, reg)
  | o :: rest, counter, reg =>
    let res := createWindow o s (envs counter) counter reg
    let more := runCreates s envs rest res.counter res.reg
    (res.meta :: more.1, more.2)

/-! ## Native window events (windowManager.js event handlers) -/

/-- The live state of the native window that the handlers query
(`window.isMaximized()`, `window.isFullScreen()`, `window.getBounds()`). -/
structure NativeState where
  isMaximized : Bool
  isFullScreen : Bool
  bounds : Bounds
deriving DecidableEq, Repr

/-- A native event delivered to one managed window.  `resize`/`move` carry
the geometry the native window has when the handler runs. -/
inductive WinEvent where
  | maximize
  | unmaximize
  | enterFullScreen
  | leaveFullScreen
  | resize (b : Bounds)
  | move (b : Bounds)
  | didNavigate (newUrl : String)
deriving DecidableEq, Repr

/-- The native window's state after the platform applies an event (the
handler observes this state). -/
def stepNative (n : NativeState) : WinEvent → NativeState
  | .maximize => { n with isMaximized := true }
  | .unmaximize => { n with isMaximized := false }
  | .enterFullScreen => { n with isFullScreen := true }
  | .leaveFullScreen => { n with isFullScreen := false }
  | .resize b => { n with bounds := b }
  | .move b => { n with bounds := b }
  | .didNavigate _ => n

/-- The windowManager.js event handlers, acting on the registry record of
the window; `n` is the native state at handler time.  `resize`/`move` write
`window.getBounds()` into the record only when the window is neither
maximized nor fullscreen; `did-navigate` re-runs the classifier. -/
def handleEvent (n : NativeState) (meta : WindowMeta) : WinEvent → WindowMeta
  | .maximize => { meta with isMaximized := true }
  | .unmaximize => { meta with isMaximized := false }
  | .enterFullScreen => { meta with isFullScreen := true }
  | .leaveFullScreen => { meta with isFullScreen := false }
  | .resize _ =>
    if !n.isMaximized && !n.isFullScreen then { meta with bounds := n.bounds } else meta
  | .move _ =>
    if !n.isMaximized && !n.isFullScreen then { meta with bounds := n.bounds } else meta
  | .didNavigate newUrl =>
    { meta with url := .str newUrl, appType := detectAppType newUrl }

/-- One delivered event: the native window changes state, then the wired
handler updates the registry record. -/
def stepWindow (st : NativeState × WindowMeta) (e : WinEvent) : NativeState × WindowMeta :=
  let n2 := stepNative st.1 e
  (n2, handleEvent n2 st.2 e)

/-- A whole event trace for one window, in delivery order. -/
def runEvents (st : NativeState × WindowMeta) (es : List WinEvent) :
    NativeState × WindowMeta :=
  es.foldl stepWindow st

/-- Holds (as `true`) when every `resize`/`move` of the trace fires while the native
window is maximized or fullscreen (i.e. the trace never records geometry in
the restored state). -/
def resizesOnlyWhileMaxed (n : NativeState) : List WinEvent → Bool
  | [] => true
  | e :: rest =>
    let n2 := stepNative n e
    (match e with
      | .resize _ => n2.isMaximized || n2.isFullScreen
      | .move _ => n2.isMaximized || n2.isFullScreen
      | _ => true) && resizesOnlyWhileMaxed n2 rest

/-! ## Snapshotting live windows (windowManager.js `getSessionState`) -/

/-- The native queries `getSessionState` performs on one window. -/
structure NativeWin where
  isMaximized : Bool
  isFullScreen : Bool
  bounds : Bounds
  currentURL : String
deriving DecidableEq, Repr

/-- The record `getSessionState` emits for one window:
`{...meta, bounds: window.isMaximized() ? meta.bounds : window.getBounds(),
isMaximized: window.isMaximized(), isFullScreen: window.isFullScreen(),
url: window.webContents.getURL()}`. -/
def sessionRecord (w : NativeWin) (meta : WindowMeta) : WindowMeta :=
  { meta with
    bounds := if w.isMaximized then meta.bounds else w.bounds
    isMaximized := w.isMaximized
    isFullScreen := w.isFullScreen
    url := .str w.currentURL }

/-- windowManager.js `getSessionState()`: iterates `BrowserWindow.getAllWindows()`
(the list of native ids with their live state), skips windows without a
registry record, and emits one `sessionRecord` per managed window in order. -/
def getSessionState (wins : List (Nat × NativeWin)) (reg : Registry) : List WindowMeta :=
  wins.filterMap (fun p => (mapGet reg p.1).map (sessionRecord p.2))

/-! ## The session file (sessionManager.js) -/

/-- Contents of `session.json` once read and `JSON.parse`d.  `malformed`
covers a parse failure as well as a value whose `windows` property is absent
or not an array (both make `restoreSession` return `false` the same way).
`timestamp` is `none` when the property is missing or non-numeric: in the
source the staleness test then compares `NaN`, which is `false`.  The window
records of a snapshot readable by `restoreSession` carry the fields
`getSessionState` wrote, i.e. they are `WindowMeta`-shaped. -/
inductive SessionContent where
  | malformed
  | parsed (version : Option Int) (timestamp : Option Int) (windows : List WindowMeta)
deriving DecidableEq, Repr

/-- sessionManager.js `saveSession()`: bails out unless the stored
`restoreSession` setting is strictly the boolean `true`; otherwise writes
`{version: 1, timestamp: Date.now(), windows: getSessionState()}` over the
session file.  The on-disk file is the last argument and the return value;
an early return leaves it untouched. -/
def saveSession (s : Settings) (state : List WindowMeta) (now : Int)
    (file : Option SessionContent) : Option SessionContent :=
  if getValue s "restoreSession" = JSVal.bool true then
    some (.parsed (some 1) (some now) state)
  else file

/-- The 24-hour staleness threshold of sessionManager.js, in milliseconds. -/
def maxSessionAge : Int := 24 * 60 * 60 * 1000

/-- The staleness test `Date.now() - sessionData.timestamp > maxAge`.  With
a missing or non-numeric timestamp the subtraction is `NaN` and the
comparison is `false`, so such a snapshot is never considered stale. -/
def isStale (now : Int) (timestamp : Option Int) : Bool :=
  match timestamp with
  | some t => now - t > maxSessionAge
  | none => false

/-- The outcome of `restoreSession()`: its boolean return value, the
`createWindow` option records it schedules (in snapshot order, one staggered
`setTimeout` per record), and the session file after the call. -/
structure RestoreResult where
  restored : Bool
  created : List CreateOptions
  file : Option SessionContent
deriving DecidableEq, Repr

/-- The `createWindow` argument `restoreSession` builds from one saved
record: `{url, appType, accountType, bounds, isMaximized, show: true}`. -/
def recordToOptions (r : WindowMeta) : CreateOptions :=
  { url := r.url
    appType := some r.appType
    accountType := some r.accountType
    bounds := some r.bounds
    isMaximized := some r.isMaximized
    showWindow := some true }

/-- sessionManager.js `restoreSession()`: gated on the `restoreSession`
setting being the boolean `true`; returns `false` on a missing file, a
malformed file, a stale snapshot (which is also deleted, via
`clearSession()`), or an empty `windows` array; otherwise schedules one
`createWindow` per record, in order, and returns `true`. -/
def restoreSession (s : Settings) (file : Option SessionContent) (now : Int) :
    RestoreResult :=
  if getValue s "restoreSession" ≠ JSVal.bool true then ⟨false, [], file⟩
  else
    match file with
    | none => ⟨false, [], none⟩
    | some .malformed => ⟨false, [], file⟩
    | some (.parsed _v ts ws) =>
      if isStale now ts then ⟨false, [], none⟩
      else if ws.length = 0 then ⟨false, [], file⟩
      else ⟨true, ws.map recordToOptions, file⟩

/-- sessionManager.js `clearSession()`: deletes the file when present. -/
def clearSession (_file : Option SessionContent) : Option SessionContent := none

/-- The `before-quit` handler installed by `initializeSessionManager()`:
calls `saveSession()` directly. -/
def beforeQuitSave (s : Settings) (state : List WindowMeta) (now : Int)
    (file : Option SessionContent) : Option SessionContent :=
  saveSession s state now file

/-- One tick of the 5-minute autosave interval installed by
`initializeSessionManager()`: calls `saveSession()` only when the
`restoreSession` setting is the boolean `true`. -/
def autosaveTick (s : Settings) (state : List WindowMeta) (now : Int)
    (file : Option SessionContent) : Option SessionContent :=
  if getValue s "restoreSession" = JSVal.bool true then saveSession s state now file
  else file

/-! ## Startup (main.js section of the bundle: `app.on("ready")` and the
local `createWindow`) -/

/-- What the main.js `createWindow()` creates: one main window with its
start URL and storage partition (the splash window it also opens holds no
app content and is destroyed on first load). -/
structure MainWindowSpec where
  url : String
  partition : String
deriving DecidableEq, Repr

/-- main.js: `enterpriseOrNormal === "?auth=1" ? "persist:personal" :
"persist:work"`. -/
def mainPartition (s : Settings) : String :=
  if getValue s "enterprise-or-normal" = .str "?auth=1" then "persist:personal"
  else "persist:work"

/-- main.js: the default start URL
`https://microsoft365.com/${custompage}/${enterpriseOrNormal}`. -/
def homeStartUrl (s : Settings) : String :=
  "https://microsoft365.com/" ++ (jsOr (getValue s "custompage") (.str "home")).toJSString
    ++ "/" ++ (getValue s "enterprise-or-normal").toJSString

/-- main.js `createWindow()`: the default window, with the CLI startup app
(when one was parsed) overriding the start URL via `getAppUrl`. -/
def mainCreateWindow (s : Settings) (cliStartupApp : Option String)
    (cliAccountType : Option String) : MainWindowSpec :=
  { url := match cliStartupApp with
      | none => homeStartUrl s
      | some appName =>
        let accountType := match cliAccountType with
          | some a => if a = "" then getAccountType s else a
          | none => getAccountType s
        (getAppUrl appName (some accountType) s).toJSString
    partition := mainPartition s }

/-- The `app.on("ready")` tail: `const sessionRestored = restoreSession();
if (!sessionRestored) createWindow();` — returns the restore outcome and
the list of default windows created. -/
def appReady (s : Settings) (file : Option SessionContent) (now : Int)
    (cliStartupApp : Option String) (cliAccountType : Option String) :
    RestoreResult × List MainWindowSpec :=
  let r := restoreSession s file now
  (r, if r.restored then [] else [mainCreateWindow s cliStartupApp cliAccountType])

end MSO

namespace MSO

/-- C1: for every account-type input, `getPartition` returns `"persist:work"`
exactly when the explicit-or-settings-derived account type is `"work"`, and
`"persist:personal"` in every other case (unknown or missing input included);
consequently the partitions resolved for `"work"` and `"personal"` windows
are never equal. -/
theorem getPartition_work_iff (accountType : JSVal) (s : Settings) :
    (getPartition accountType s = "persist:work" ↔
      resolvedAccountType accountType s = .str "work")
    ∧ (getPartition accountType s = "persist:work" ∨
      getPartition accountType s = "persist:personal")
    ∧ getPartition (.str "work") s ≠ getPartition (.str "personal") s := by
  refine ⟨?_, ?_, ?_⟩
  · unfold getPartition
    by_cases h : resolvedAccountType accountType s = JSVal.str "work" <;>
      simp [h]
  · unfold getPartition
    by_cases h : resolvedAccountType accountType s = JSVal.str "work" <;>
      simp [h]
  · simp [getPartition, resolvedAccountType, JSVal.truthy]

/-- Witness for C1 at a concrete settings store and input. -/
theorem getPartition_work_iff_witness :
    getPartition (.str "work") (fun _ => JSVal.undef) ≠
      getPartition (.str "personal") (fun _ => JSVal.undef) :=
  (getPartition_work_iff (.str "work") (fun _ => JSVal.undef)).2.2

/-- C9: whenever the stored `restoreSession` setting is anything other than
the boolean `true` (the strings `"true"`/`"false"` and an absent key
included), `saveSession` — also when invoked from the `before-quit` handler
or an autosave tick — leaves the on-disk snapshot untouched, and its result
does not depend on the window state or the clock it could have read. -/
theorem saveSession_disabled_frame (s : Settings) (state state2 : List WindowMeta)
    (now now2 : Int) (file : Option SessionContent)
    (h : getValue s "restoreSession" ≠ JSVal.bool true) :
    saveSession s state now file = file
    ∧ beforeQuitSave s state now file = file
    ∧ autosaveTick s state now file = file
    ∧ saveSession s state now file = saveSession s state2 now2 file := by
  unfold beforeQuitSave autosaveTick saveSession
  simp [h]

/-- Witness for C9: the string value `"true"` (not the boolean) leaves the
absent session file absent. -/
theorem saveSession_disabled_frame_witness :
    saveSession (fun k => if k = "restoreSession" then JSVal.str "true" else JSVal.undef)
      [] 0 none = none :=
  (saveSession_disabled_frame
    (fun k => if k = "restoreSession" then JSVal.str "true" else JSVal.undef)
    [] [] 0 1 none (by decide)).1

/-- C5: with restore enabled, a well-formed snapshot whose timestamp is more
than 24 hours before the current time is not restored: `restoreSession`
returns `false`, schedules no window, and deletes the session file. -/
theorem restoreSession_stale_discards (s : Settings) (v : Option Int) (t : Int)
    (ws : List WindowMeta) (now : Int)
    (henabled : getValue s "restoreSession" = JSVal.bool true)
    (hstale : now - t > maxSessionAge) :
    restoreSession s (some (.parsed v (some t) ws)) now =
      ⟨false, [], none⟩ := by
  unfold restoreSession
  simp [henabled, isStale, hstale]

/-- Witness for C5: a snapshot one millisecond past the threshold is
discarded. -/
theorem restoreSession_stale_discards_witness :
    restoreSession (fun k => if k = "restoreSession" then JSVal.bool true else JSVal.undef)
      (some (.parsed (some 1) (some 0) [])) (24 * 60 * 60 * 1000 + 1) =
      ⟨false, [], none⟩ :=
  restoreSession_stale_discards
    (fun k => if k = "restoreSession" then JSVal.bool true else JSVal.undef)
    (some 1) 0 [] (24 * 60 * 60 * 1000 + 1) (by decide) (by decide)

/-- C10: with restore enabled and a non-empty windows array, a snapshot
whose timestamp is missing or non-numeric passes the staleness test (the
`NaN` comparison is `false`) and is restored as if it were fresh, rather
than being rejected as malformed or stale. -/
theorem restoreSession_missing_timestamp (s : Settings) (v : Option Int)
    (ws : List WindowMeta) (now : Int)
    (henabled : getValue s "restoreSession" = JSVal.bool true)
    (hne : ws ≠ []) :
    isStale now none = false
    ∧ restoreSession s (some (.parsed v none ws)) now =
      ⟨true, ws.map recordToOptions, some (.parsed v none ws)⟩ := by
  refine ⟨rfl, ?_⟩
  unfold restoreSession
  simp [henabled, isStale, hne]

/-- Witness for C10: an aged clock with no timestamp field still restores
the single saved window. -/
theorem restoreSession_missing_timestamp_witness :
    restoreSession (fun k => if k = "restoreSession" then JSVal.bool true else JSVal.undef)
      (some (.parsed (some 1) none
        [⟨1, "home", "personal", .str "https://microsoft365.com/?auth=1",
          ⟨some 0, some 0, 1200, 800⟩, false, false⟩]))
      (10 * 24 * 60 * 60 * 1000) =
      ⟨true,
        [recordToOptions ⟨1, "home", "personal", .str "https://microsoft365.com/?auth=1",
          ⟨some 0, some 0, 1200, 800⟩, false, false⟩],
        some (.parsed (some 1) none
          [⟨1, "home", "personal", .str "https://microsoft365.com/?auth=1",
            ⟨some 0, some 0, 1200, 800⟩, false, false⟩])⟩ :=
  (restoreSession_missing_timestamp
    (fun k => if k = "restoreSession" then JSVal.bool true else JSVal.undef)
    (some 1)
    [⟨1, "home", "personal", .str "https://microsoft365.com/?auth=1",
      ⟨some 0, some 0, 1200, 800⟩, false, false⟩]
    (10 * 24 * 60 * 60 * 1000) (by decide) (by decide)).2

set_option linter.unnecessarySeqFocus false in
/-- C6: when the persisted snapshot is missing, malformed (`windows` not a
sequence), or has an empty `windows` sequence, restore reports no session
and startup creates exactly one default window, at the configured home URL
and account-type partition — never zero windows and never more than one. -/
theorem startup_default_window (s : Settings) (file : Option SessionContent) (now : Int)
    (h : file = none ∨ file = some .malformed ∨
      ∃ v ts, file = some (.parsed v ts [])) :
    (restoreSession s file now).restored = false
    ∧ (appReady s file now none none).2 = [⟨homeStartUrl s, mainPartition s⟩] := by
  have hr : (restoreSession s file now).restored = false := by
    unfold restoreSession
    rcases h with h | h | ⟨v, ts, h⟩ <;> subst h <;>
      by_cases hs : getValue s "restoreSession" = JSVal.bool true <;>
        simp [hs] <;> by_cases hst : isStale now ts <;> simp [hst]
  refine ⟨hr, ?_⟩
  unfold appReady
  simp [hr, mainCreateWindow]

/-- Witness for C6 on a missing session file. -/
theorem startup_default_window_witness :
    (appReady (fun _ => JSVal.undef) none 0 none none).2 =
      [⟨homeStartUrl (fun _ => JSVal.undef), mainPartition (fun _ => JSVal.undef)⟩] :=
  (startup_default_window (fun _ => JSVal.undef) none 0 (Or.inl rfl)).2

/-- A single handled event whose every `resize`/`move` fires while the
native window is maximized or fullscreen leaves the record's `bounds`
field unchanged. -/
theorem handleEvent_bounds_eq (n : NativeState) (meta : WindowMeta) (e : WinEvent)
    (h : (match e with
      | .resize _ => n.isMaximized || n.isFullScreen
      | .move _ => n.isMaximized || n.isFullScreen
      | _ => true) = true) :
    (handleEvent n meta e).bounds = meta.bounds := by
  cases e <;> simp only [handleEvent] <;> try rfl
  all_goals
    cases hm : n.isMaximized <;> cases hf : n.isFullScreen <;> simp_all

/-- Over a whole trace: if every `resize`/`move` fires while the native
window is maximized or fullscreen, the registry record keeps its `bounds`. -/
theorem runEvents_bounds_eq (es : List WinEvent) :
    ∀ (n : NativeState) (meta : WindowMeta),
      resizesOnlyWhileMaxed n es = true →
      (runEvents (n, meta) es).2.bounds = meta.bounds := by
  induction es with
  | nil => intro n meta _h; rfl
  | cons e rest ih =>
    intro n meta h
    simp only [resizesOnlyWhileMaxed, Bool.and_eq_true] at h
    obtain ⟨h1, h2⟩ := h
    have hstep : runEvents (n, meta) (e :: rest) =
        runEvents (stepNative n e, handleEvent (stepNative n e) meta e) rest := rfl
    rw [hstep, ih (stepNative n e) (handleEvent (stepNative n e) meta e) h2]
    exact handleEvent_bounds_eq (stepNative n e) meta e h1

/-- Appending a final `unmaximize` never breaks the trace guard. -/
theorem resizesOnly_append_unmax (es : List WinEvent) :
    ∀ (n : NativeState), resizesOnlyWhileMaxed n es = true →
      resizesOnlyWhileMaxed n (es ++ [WinEvent.unmaximize]) = true := by
  induction es with
  | nil => intro n _h; rfl
  | cons e rest ih =>
    intro n h
    simp only [resizesOnlyWhileMaxed, Bool.and_eq_true] at h ⊢
    exact ⟨h.1, ih (stepNative n e) h.2⟩

/-- C3: `resize`/`move` events delivered while the native window is
maximized or fullscreen leave the registry record's `bounds` unchanged;
consequently, after a `maximize` event, any trace whose `resize`/`move`
events all fire while maximized-or-fullscreen, followed by `unmaximize`,
leaves `bounds` equal to the last bounds recorded before the `maximize` —
never the maximized-size rectangle. -/
theorem maximized_resize_keeps_bounds (n : NativeState) (meta : WindowMeta) :
    (∀ b, ((stepNative n (.resize b)).isMaximized ||
        (stepNative n (.resize b)).isFullScreen) = true →
      (stepWindow (n, meta) (.resize b)).2.bounds = meta.bounds)
    ∧ (∀ b, ((stepNative n (.move b)).isMaximized ||
        (stepNative n (.move b)).isFullScreen) = true →
      (stepWindow (n, meta) (.move b)).2.bounds = meta.bounds)
    ∧ (∀ es, resizesOnlyWhileMaxed (stepNative n .maximize) es = true →
      (runEvents (n, meta) (.maximize :: (es ++ [.unmaximize]))).2.bounds =
        meta.bounds) := by
  refine ⟨?_, ?_, ?_⟩
  · intro b h
    exact handleEvent_bounds_eq (stepNative n (.resize b)) meta (.resize b) h
  · intro b h
    exact handleEvent_bounds_eq (stepNative n (.move b)) meta (.move b) h
  · intro es h
    have hg : resizesOnlyWhileMaxed n
        (WinEvent.maximize :: (es ++ [WinEvent.unmaximize])) = true := by
      simp only [resizesOnlyWhileMaxed, Bool.and_eq_true]
      exact ⟨trivial, resizesOnly_append_unmax es (stepNative n .maximize) h⟩
    exact runEvents_bounds_eq (WinEvent.maximize :: (es ++ [WinEvent.unmaximize]))
      n meta hg

/-- Witness for C3: a maximize, a resize to the maximized rectangle, then
an unmaximize leave the recorded restored bounds intact. -/
theorem maximized_resize_keeps_bounds_witness :
    (runEvents
        ((⟨false, false, ⟨some 10, some 20, 800, 600⟩⟩ : NativeState),
          (⟨1, "home", "personal", JSVal.str "https://microsoft365.com/?auth=1",
            ⟨some 10, some 20, 800, 600⟩, false, false⟩ : WindowMeta))
        (WinEvent.maximize ::
          ([WinEvent.resize ⟨some 0, some 0, 1920, 1080⟩] ++
            [WinEvent.unmaximize]))).2.bounds =
      (⟨1, "home", "personal", JSVal.str "https://microsoft365.com/?auth=1",
        ⟨some 10, some 20, 800, 600⟩, false, false⟩ : WindowMeta).bounds :=
  (maximized_resize_keeps_bounds
    ⟨false, false, ⟨some 10, some 20, 800, 600⟩⟩
    ⟨1, "home", "personal", JSVal.str "https://microsoft365.com/?auth=1",
      ⟨some 10, some 20, 800, 600⟩, false, false⟩).2.2
    [WinEvent.resize ⟨some 0, some 0, 1920, 1080⟩] (by decide)

/-- The field agreement the round-trip law asks for: the recreated window
has the `appType`, `accountType`, `bounds` and `isMaximized` of the saved
record. -/
def fieldsMatch (c r : WindowMeta) : Prop :=
  c.appType = r.appType ∧ c.accountType = r.accountType ∧
  c.bounds = r.bounds ∧ c.isMaximized = r.isMaximized

/-- Replaying saved records through `createWindow` reproduces the four
persisted fields of each record, in order, whatever the settings, id
counter, registry and native environment are. -/
theorem runCreates_restores_fields (s : Settings) (envs : Nat → CreateEnv) :
    ∀ (rs : List WindowMeta) (counter : Nat) (reg : Registry),
      List.Forall₂ fieldsMatch
        (runCreates s envs (rs.map recordToOptions) counter reg).1 rs := by
  intro rs
  induction rs with
  | nil => intro counter reg; exact List.Forall₂.nil
  | cons r rest ih =>
    intro counter reg
    simp only [List.map, runCreates]
    refine List.Forall₂.cons ?_ (ih _ _)
    simp [createWindow, recordToOptions, fieldsMatch]

/-- C2: saving a snapshot and restoring it again within the 24-hour
staleness threshold recreates windows whose `appType`, `accountType`,
`bounds` and `isMaximized` equal those of the corresponding saved record,
in the snapshot's order (`List.Forall₂` forces equal length and pairing
in order). -/
theorem session_roundtrip (s : Settings) (state : List WindowMeta) (now now2 : Int)
    (file : Option SessionContent) (envs : Nat → CreateEnv) (counter : Nat)
    (reg : Registry)
    (henabled : getValue s "restoreSession" = JSVal.bool true)
    (hfresh : now2 - now ≤ maxSessionAge) :
    List.Forall₂ fieldsMatch
      (runCreates s envs
        (restoreSession s (saveSession s state now file) now2).created counter reg).1
      state := by
  have hsave : saveSession s state now file =
      some (.parsed (some 1) (some now) state) := by
    unfold saveSession; simp [henabled]
  rw [hsave]
  have hns : ¬ (now2 - now > maxSessionAge) := not_lt.mpr hfresh
  have hcreated :
      (restoreSession s (some (.parsed (some 1) (some now) state)) now2).created =
        state.map recordToOptions := by
    unfold restoreSession
    by_cases h0 : state.length = 0
    · simp [henabled, isStale, hns, h0, List.length_eq_zero.mp h0]
    · simp [henabled, isStale, hns, h0]
  rw [hcreated]
  exact runCreates_restores_fields s envs state counter reg

/-- Witness for C2: one saved window round-trips through save and restore. -/
theorem session_roundtrip_witness :
    List.Forall₂ fieldsMatch
      (runCreates (fun k => if k = "restoreSession" then JSVal.bool true else JSVal.undef)
        (fun _ => ⟨7, ⟨none, none, 1000, 700⟩⟩)
        (restoreSession
          (fun k => if k = "restoreSession" then JSVal.bool true else JSVal.undef)
          (saveSession
            (fun k => if k = "restoreSession" then JSVal.bool true else JSVal.undef)
            [⟨1, "word", "work", .str "https://microsoft365.com/launch/word?auth=2",
              ⟨some 3, some 4, 640, 480⟩, true, false⟩]
            0 none)
          5).created
        0 []).1
      [⟨1, "word", "work", .str "https://microsoft365.com/launch/word?auth=2",
        ⟨some 3, some 4, 640, 480⟩, true, false⟩] :=
  session_roundtrip
    (fun k => if k = "restoreSession" then JSVal.bool true else JSVal.undef)
    [⟨1, "word", "work", .str "https://microsoft365.com/launch/word?auth=2",
      ⟨some 3, some 4, 640, 480⟩, true, false⟩]
    0 5 none (fun _ => ⟨7, ⟨none, none, 1000, 700⟩⟩) 0 [] (by decide) (by decide)

/-- C4 counterexample: a window that is fullscreen but not maximized gets
the *live* fullscreen rectangle written into its snapshot record — the
source only guards on `window.isMaximized()` — so the emitted bounds is the
transient fullscreen geometry, not the cached restored bounds
`⟨some 10, some 20, 800, 600⟩`. -/
theorem getSessionState_fullscreen_counterexample :
    getSessionState
        [(1, ⟨false, true, ⟨some 0, some 0, 1920, 1080⟩,
          "https://microsoft365.com/?auth=1"⟩)]
        [(1, ⟨1, "home", "personal", .str "https://microsoft365.com/?auth=1",
          ⟨some 10, some 20, 800, 600⟩, false, true⟩)] =
      [⟨1, "home", "personal", .str "https://microsoft365.com/?auth=1",
        ⟨some 0, some 0, 1920, 1080⟩, false, true⟩]
    ∧ decide ((⟨some 0, some 0, 1920, 1080⟩ : Bounds) =
        ⟨some 10, some 20, 800, 600⟩) = false := by
  decide

/-- C4 amended: each snapshot record takes `isMaximized`, `isFullScreen`
and `url` from the native window at snapshot time; `bounds` is the cached
restored bounds for a currently *maximized* window, and the live geometry
otherwise — including for a fullscreen non-maximized window, whose live
fullscreen rectangle is written. -/
theorem getSessionState_fields (w : NativeWin) (meta : WindowMeta) :
    (sessionRecord w meta).isMaximized = w.isMaximized
    ∧ (sessionRecord w meta).isFullScreen = w.isFullScreen
    ∧ (sessionRecord w meta).url = .str w.currentURL
    ∧ (w.isMaximized = true → (sessionRecord w meta).bounds = meta.bounds)
    ∧ (w.isMaximized = false → (sessionRecord w meta).bounds = w.bounds)
    ∧ ∀ (wins : List (Nat × NativeWin)) (reg : Registry) (id : Nat),
        mapGet reg id = some meta →
        getSessionState ((id, w) :: wins) reg =
          sessionRecord w meta :: getSessionState wins reg := by
  refine ⟨rfl, rfl, rfl, ?_, ?_, ?_⟩
  · intro h; simp [sessionRecord, h]
  · intro h; simp [sessionRecord, h]
  · intro wins reg id h
    simp [getSessionState, h]

/-- Witness for C4 amended: a maximized window's record keeps the cached
bounds, and the record enters the snapshot list. -/
theorem getSessionState_fields_witness :
    (sessionRecord ⟨true, false, ⟨some 0, some 0, 1920, 1080⟩, "https://a/b"⟩
        ⟨1, "home", "personal", .str "https://a/b",
          ⟨some 10, some 20, 800, 600⟩, true, false⟩).bounds =
      (⟨1, "home", "personal", .str "https://a/b",
        ⟨some 10, some 20, 800, 600⟩, true, false⟩ : WindowMeta).bounds
    ∧ getSessionState
        [(1, ⟨true, false, ⟨some 0, some 0, 1920, 1080⟩, "https://a/b"⟩)]
        [(1, ⟨1, "home", "personal", .str "https://a/b",
          ⟨some 10, some 20, 800, 600⟩, true, false⟩)] =
      [sessionRecord ⟨true, false, ⟨some 0, some 0, 1920, 1080⟩, "https://a/b"⟩
        ⟨1, "home", "personal", .str "https://a/b",
          ⟨some 10, some 20, 800, 600⟩, true, false⟩] :=
  ⟨(getSessionState_fields
      ⟨true, false, ⟨some 0, some 0, 1920, 1080⟩, "https://a/b"⟩
      ⟨1, "home", "personal", .str "https://a/b",
        ⟨some 10, some 20, 800, 600⟩, true, false⟩).2.2.2.1 rfl,
    (getSessionState_fields
      ⟨true, false, ⟨some 0, some 0, 1920, 1080⟩, "https://a/b"⟩
      ⟨1, "home", "personal", .str "https://a/b",
        ⟨some 10, some 20, 800, 600⟩, true, false⟩).2.2.2.2.2 [] _ 1 rfl⟩

/-- C7 counterexample: no classifier of the source behaves as the claim
states.  The only `(url, title)` classifier (the dynamic-icons one) maps
the claim's own example `("https://x/outlook", "")` to `"office"`, not
`"outlook"`; and the URL-only `detectAppType` ignores the title, mapping
`"https://unknown.example"` to `"home"` even when the title carries the
`.pptx` extension hint, where the claimed rule list yields `"powerpoint"`
(`classifyClaim` is the claim's rule list, written from its words). -/
theorem classifier_claim_counterexample :
    dynamicIconsApp "https://x/outlook" "" = "office"
    ∧ classifyClaim "https://x/outlook" "" = "outlook"
    ∧ detectAppType "https://unknown.example" = "home"
    ∧ classifyClaim "https://unknown.example" "report.pptx" = "powerpoint" := by
  decide

/-- C7 amended: the app-type classifier `detectAppType` is a pure,
deterministic function of the URL alone — the document title plays no role —
applying the fixed ordered substring rules word/.docx, excel/.xlsx,
powerpoint/.pptx, outlook, onedrive, onenote, teams to the lowercased URL,
first match winning, with `"home"` when no rule matches; in particular
`detectAppType "https://x/outlook" = "outlook"` and
`detectAppType "https://unknown.example" = "home"`. -/
theorem detectAppType_firstMatch :
    (∀ url, detectAppType url = firstMatch detectRules (jsToLower url) "home")
    ∧ detectAppType "https://x/outlook" = "outlook"
    ∧ detectAppType "https://unknown.example" = "home" := by
  refine ⟨fun url => rfl, by decide, by decide⟩

/-- C8 counterexample: a `createWindow` call whose native window id already
has a registry record does not no-op — the pre-existing record is replaced
by the new window's metadata (a JavaScript `Map.set`), though the registry
size stays 1. -/
theorem register_duplicate_counterexample :
    mapGet (createWindow ⟨.null, none, none, none, none, none⟩
        (fun _ => JSVal.undef) ⟨1, ⟨none, none, 1000, 700⟩⟩ 5
        [(1, ⟨1, "word", "work", .str "https://w", ⟨some 1, some 1, 10, 10⟩,
          false, false⟩)]).reg 1 =
      some ⟨6, "home", "personal", .str "https://microsoft365.com/?auth=1",
        ⟨none, none, 1000, 700⟩, false, false⟩
    ∧ decide ((⟨6, "home", "personal", .str "https://microsoft365.com/?auth=1",
        ⟨none, none, 1000, 700⟩, false, false⟩ : WindowMeta) =
        ⟨1, "word", "work", .str "https://w", ⟨some 1, some 1, 10, 10⟩,
          false, false⟩) = false
    ∧ mapSize (createWindow ⟨.null, none, none, none, none, none⟩
        (fun _ => JSVal.undef) ⟨1, ⟨none, none, 1000, 700⟩⟩ 5
        [(1, ⟨1, "word", "work", .str "https://w", ⟨some 1, some 1, 10, 10⟩,
          false, false⟩)]).reg = 1 := by
  decide

/-- Setting an existing key retrieves the new value. -/
theorem mapGet_mapSet_self : ∀ (m : Registry) (k : Nat) (v : WindowMeta),
    mapGet (mapSet m k v) k = some v := by
  intro m k v
  induction m with
  | nil => simp [mapSet, mapGet]
  | cons p t ih =>
    by_cases h : p.1 = k <;> simp [mapSet, mapGet, h, ih]

/-- Setting a key that is present keeps the map's size. -/
theorem mapSize_mapSet_mem : ∀ (m : Registry) (k : Nat) (v old : WindowMeta),
    mapGet m k = some old → mapSize (mapSet m k v) = mapSize m := by
  intro m k v old
  induction m with
  | nil => intro h; simp [mapGet] at h
  | cons p t ih =>
    intro h
    by_cases hk : p.1 = k
    · simp [mapSet, hk, mapSize]
    · simp [mapGet, hk] at h
      simp [mapSet, hk, mapSize] at ih ⊢
      exact ih h

/-- Setting one key leaves every other key's record unchanged. -/
theorem mapGet_mapSet_other : ∀ (m : Registry) (k : Nat) (v : WindowMeta) (k2 : Nat),
    k2 ≠ k → mapGet (mapSet m k v) k2 = mapGet m k2 := by
  intro m k v k2 hne
  induction m with
  | nil => simp [mapSet, mapGet, Ne.symm hne]
  | cons p t ih =>
    by_cases h : p.1 = k
    · subst h
      simp [mapSet, mapGet, Ne.symm hne]
    · simp [mapSet, mapGet, h, ih]

/-- C8 amended: a registration request for a native id that already has a
registry record *replaces* that record in place with the new metadata (the
behaviour of `managedWindows.set`): the new record is retrievable, no second
record appears (the registry size is unchanged), records under other ids
are untouched — and `createWindow`'s registry update is exactly this
`mapSet` of its freshly built record under the native id. -/
theorem register_duplicate_overwrites (reg : Registry) (k : Nat) (old v : WindowMeta)
    (h : mapGet reg k = some old) :
    mapGet (mapSet reg k v) k = some v
    ∧ mapSize (mapSet reg k v) = mapSize reg
    ∧ (∀ k2, k2 ≠ k → mapGet (mapSet reg k v) k2 = mapGet reg k2)
    ∧ ∀ (opts : CreateOptions) (s : Settings) (env : CreateEnv) (counter : Nat),
        (createWindow opts s env counter reg).reg =
          mapSet reg env.nativeId (createWindow opts s env counter reg).meta :=
  ⟨mapGet_mapSet_self reg k v,
    mapSize_mapSet_mem reg k v old h,
    fun k2 hne => mapGet_mapSet_other reg k v k2 hne,
    fun _ _ _ _ => rfl⟩

/-- Witness for C8 amended at a one-record registry. -/
theorem register_duplicate_overwrites_witness :
    mapGet (mapSet
        [(1, ⟨1, "word", "work", .str "https://w", ⟨some 1, some 1, 10, 10⟩,
          false, false⟩)] 1
        ⟨2, "home", "personal", .str "https://h", ⟨none, none, 5, 5⟩,
          false, false⟩) 1 =
      some ⟨2, "home", "personal", .str "https://h", ⟨none, none, 5, 5⟩,
        false, false⟩ :=
  (register_duplicate_overwrites
    [(1, ⟨1, "word", "work", .str "https://w", ⟨some 1, some 1, 10, 10⟩,
      false, false⟩)] 1
    ⟨1, "word", "work", .str "https://w", ⟨some 1, some 1, 10, 10⟩, false, false⟩
    ⟨2, "home", "personal", .str "https://h", ⟨none, none, 5, 5⟩, false, false⟩
    rfl).1

end MSO
